import Mathlib

/-!
# Verification of the Atriquet outfit-synthesis pipeline

Shallow embedding of `backend/services/cloudflare_diffusion_service.py`
(class `CloudflareDiffusionService`), in two layers:

* **Pixel layer** — the arithmetic of `PIL.Image.composite` as invoked at
  `_pass1_sd_composite` line 312 (`Image.composite(generated, original, mask)`).
  For an 8-bit `L` mask, Pillow's `Paste.c` blends each channel with pure
  integer arithmetic:
  `BLEND(mask, in1, in2) = MULDIV255(in1, 255 - mask) + MULDIV255(in2, mask)`
  where `MULDIV255(a, b) = (tmp = a*b + 128; ((tmp >> 8) + tmp) >> 8)`,
  with `in1` the destination (the original) and `in2` the pasted source
  (the generated frame).

* **Orchestration layer** — the control flow of `generate_outfit_on_person`,
  `_pass1_sd_composite` and `_pass2_flux_refine`: normalization arithmetic,
  failure classification of the external HTTP responses, the ordered
  refinement fallback, and which image object is finally returned.
  Images are represented by their provenance (decoded / resized /
  composited) together with their dimensions; HTTP responses by the fields
  the code inspects (status, content type, body size, decodability,
  JSON success flag and image field).
-/

namespace Atriquet

/-! ## Pixel layer: Pillow's integer composite -/

/-- Pillow's `MULDIV255(a, b)` from `Paste.c`:
`tmp = a*b + 128; ((tmp >> 8) + tmp) >> 8`, i.e. the 8-bit fixed-point
approximation of `a * b / 255`. -/
def muldiv255 (a b : ℕ) : ℕ :=
  ((a * b + 128) / 256 + (a * b + 128)) / 256

/-- Pillow's `BLEND(mask, in1, in2)` from `Paste.c` as used by
`Image.composite(generated, original, mask)`: `in1` is the destination
channel value (original), `in2` the source channel value (generated). -/
def blendPx (m o g : ℕ) : ℕ :=
  muldiv255 o (255 - m) + muldiv255 g m

/-- For inputs in the 8-bit range, `MULDIV255` computes the nearest integer
to `a*b/255` (as `(2*a*b + 255) / 510`; a tie is impossible because
`2*a*b + 255` is odd). -/
theorem muldiv255_eq_round (a b : ℕ) (ha : a ≤ 255) (hb : b ≤ 255) :
    muldiv255 a b = (2 * (a * b) + 255) / 510 := by
  have hn : a * b ≤ 65025 := by
    calc a * b ≤ 255 * 255 := Nat.mul_le_mul ha hb
    _ = 65025 := by norm_num
  unfold muldiv255
  omega

/-- In the 8-bit range, `MULDIV255 a 255 = a`. -/
theorem muldiv255_id (a : ℕ) (ha : a ≤ 255) : muldiv255 a 255 = a := by
  rw [muldiv255_eq_round a 255 ha (le_refl 255)]
  omega

/-- Always, `MULDIV255 a 0 = 0`. -/
theorem muldiv255_zero (a : ℕ) : muldiv255 a 0 = 0 := by
  unfold muldiv255
  omega

/-- At mask value 0 the blend returns the original channel exactly. -/
theorem blendPx_mask_zero (o g : ℕ) (ho : o ≤ 255) :
    blendPx 0 o g = o := by
  unfold blendPx
  rw [muldiv255_zero]
  simpa using muldiv255_id o ho

/-- At mask value 255 the blend returns the generated channel exactly. -/
theorem blendPx_mask_full (o g : ℕ) (hg : g ≤ 255) :
    blendPx 255 o g = g := by
  unfold blendPx
  simp [muldiv255_zero, muldiv255_id g hg]

/-- When both channels agree, the blend is the identity: the two rounded
halves recombine exactly. -/
theorem blendPx_same (m o : ℕ) (hm : m ≤ 255) (ho : o ≤ 255) :
    blendPx m o o = o := by
  unfold blendPx
  have h1 : o * (255 - m) ≤ 65025 := by
    calc o * (255 - m) ≤ 255 * 255 := Nat.mul_le_mul ho (by omega)
    _ = 65025 := by norm_num
  have h2 : o * m ≤ 65025 := by
    calc o * m ≤ 255 * 255 := Nat.mul_le_mul ho hm
    _ = 65025 := by norm_num
  rw [muldiv255_eq_round o (255 - m) ho (by omega),
      muldiv255_eq_round o m ho hm]
  have hsum : o * (255 - m) + o * m = o * 255 := by
    rw [← Nat.mul_add]
    congr 1
    omega
  omega

/-- A 3-channel bitmap: width, height and a channel value at each
coordinate.  (`px` is total; only coordinates below the bounds are
meaningful, matching Pillow's dense pixel access.) -/
structure PixImage where
  width : ℕ
  height : ℕ
  px : ℕ → ℕ → Fin 3 → ℕ

/-- A single-channel (`L`-mode) mask bitmap. -/
structure PixMask where
  width : ℕ
  height : ℕ
  px : ℕ → ℕ → ℕ

/-- Pillow's `Image.composite(generated, original, mask)`: every channel of every
pixel is Pillow's integer blend of the original (destination) and the
generated (source) weighted by the mask. -/
def compositeImg (generated original : PixImage) (mask : PixMask) : PixImage :=
  { width := original.width
    height := original.height
    px := fun x y c => blendPx (mask.px x y) (original.px x y c) (generated.px x y c) }

/-! ## Orchestration layer

Images are tracked by provenance: a decoded bitmap (with an identity tag,
since the pipeline never inspects pixel values when routing), a `resize`
of another image (Lanczos resampled by Pillow; only the new dimensions are
observable to the orchestration), or the Pass-1 `Image.composite` result.
-/

/-- An image object as the orchestration code handles it.  `decoded tag w h`
is the result of `Image.open(...).convert('RGB')` on some byte string
(`tag` distinguishes distinct sources), `resized img w h` is
`img.resize((w, h), Image.LANCZOS)`, and `composited gen orig mask` is
`Image.composite(gen, orig, mask)` with an `L`-mode mask of the recorded
dimensions. -/
inductive PImage where
  | decoded (tag w h : ℕ)
  | resized (src : PImage) (w h : ℕ)
  | composited (gen orig : PImage) (maskW maskH : ℕ)
deriving DecidableEq, Repr

/-- Width of an image object (`Image.size[0]`). -/
def PImage.width : PImage → ℕ
  | .decoded _ w _ => w
  | .resized _ w _ => w
  | .composited _ orig _ _ => orig.width

/-- Height of an image object (`Image.size[1]`). -/
def PImage.height : PImage → ℕ
  | .decoded _ _ h => h
  | .resized _ _ h => h
  | .composited _ orig _ _ => orig.height

/-- A binary HTTP body as the code observes it: its byte length
(`len(response.content)`) and the outcome of `Image.open(...)` on it
(`none` models bytes that fail to decode, which raises and is caught by
the surrounding `except`). -/
structure BinaryPayload where
  len : ℕ
  decoded : Option PImage
deriving DecidableEq, Repr

/-- The Pass-1 (`_pass1_sd_composite`) transport outcome of the single
img2img POST: a timeout (`httpx.TimeoutException`), or a response with its
status code, whether the `content-type` header contains
`application/json`, and the binary body. -/
inductive SDResponse where
  | timeout
  | http (status : ℕ) (json : Bool) (body : BinaryPayload)
deriving DecidableEq, Repr

/-- A JSON body of a refinement response as `_pass2_flux_refine` reads it:
`success` is the truthiness of `result.get("success")` and `image` is the
payload behind `result.get("result", {}).get("image", "")` (`none` when
the field is missing or empty; a payload whose `decoded` is `none` models
an image string whose base64-decode or `Image.open` raises). -/
structure FluxJsonBody where
  success : Bool
  image : Option BinaryPayload
deriving DecidableEq, Repr

/-- The transport outcome of one refinement candidate request in
`_pass2_flux_refine`: timeout, a JSON response (content type containing
`"json"`), or a binary response. -/
inductive FluxResponse where
  | timeout
  | httpJson (status : ℕ) (body : FluxJsonBody)
  | httpBinary (status : ℕ) (body : BinaryPayload)
deriving DecidableEq, Repr

/-- The two refinement model identifiers from `self.models`, in the order
`_pass2_flux_refine` tries them (`flux_models` list, lines 358-361). -/
def fluxModels : List String :=
  ["@cf/black-forest-labs/flux-2-klein-9b", "@cf/black-forest-labs/flux-2-klein-4b"]

/-- Body of `_pass1_sd_composite` (lines 290-321), from the POST onwards: classify
the response; on success decode the generated frame, resize it back to the
working resolution if the endpoint changed it, and composite it onto the
original through the clothing mask built for the working dimensions.
`none` is the `return None` of every failure branch. -/
def pass1 (original : PImage) (imgW imgH : ℕ) (resp : SDResponse) : Option PImage :=
  match resp with
  | .timeout => none
  | .http status json body =>
    if status ≠ 200 then none
    else if json then none
    else if body.len < 1000 then none
    else
      match body.decoded with
      | none => none
      | some gen =>
        let g := if (gen.width, gen.height) ≠ (imgW, imgH)
                 then PImage.resized gen imgW imgH else gen
        some (PImage.composited g original imgW imgH)

/-- One iteration of the candidate loop in `_pass2_flux_refine`
(lines 369-408): `some img` exactly when this candidate's response is
accepted and decoded; `none` on every `continue` branch. -/
def tryFlux (resp : FluxResponse) : Option PImage :=
  match resp with
  | .timeout => none
  | .httpJson status body =>
    if status ≠ 200 then none
    else if body.success then
      match body.image with
      | some payload => payload.decoded
      | none => none
    else none
  | .httpBinary status body =>
    if status ≠ 200 then none
    else if body.len > 1000 then body.decoded
    else none

/-- The `for model_id in flux_models` loop: try each candidate in order,
return the first accepted image, `none` when the list is exhausted. -/
def tryModels (env : String → FluxResponse) : List String → Option PImage
  | [] => none
  | m :: rest =>
    match tryFlux (env m) with
    | some img => some img
    | none => tryModels env rest

/-- The upscale at the top of `_pass2_flux_refine` (lines 333-336):
`scale = 768 / max(w, h); ((int(d * scale) // 8) * 8` for each dimension.
The source computes `d * scale` in floating point; it is modelled as the
exact integer floor `d * 768 / max w h`, which can differ from the float
value by at most one truncation step and leaves every bound proved below
unchanged. -/
def refineInputDims (w h : ℕ) : ℕ × ℕ :=
  ((w * 768 / max w h / 8) * 8, (h * 768 / max w h / 8) * 8)

/-- Body of `_pass2_flux_refine` (lines 323-415): upsample the composite for
submission, then run the candidate loop over `fluxModels`; `env` gives the
transport outcome of each candidate's request.  The function's value does
not depend on the submitted image, only the loop does. -/
def pass2 (env : String → FluxResponse) : Option PImage :=
  tryModels env fluxModels

/-- The image submitted to the refinement endpoints:
`composite.resize((new_w, new_h), Image.LANCZOS)`. -/
def pass2Submit (composite : PImage) : PImage :=
  PImage.resized composite (refineInputDims composite.width composite.height).1
    (refineInputDims composite.width composite.height).2

/-- The normalization arithmetic of `generate_outfit_on_person`
(lines 141-150): scale so the larger dimension is 512, then truncate both
dimensions to multiples of 8.  `int(h * max_size / w)` divides exact
integers by a float; it is modelled as the exact integer floor, which
agrees with the source for every realizable image size. -/
def normalizeDims (w h : ℕ) : ℕ × ℕ :=
  if w > h then (512, (h * 512 / w / 8) * 8)
  else ((w * 512 / h / 8) * 8, 512)

/-- Outcome of decoding the input bytes
(`base64.b64decode` + `Image.open` + `convert('RGB')`, lines 136-139):
`fail` models bytes that raise, `ok img` the decoded image. -/
inductive DecodeResult where
  | fail
  | ok (img : PImage)
deriving DecidableEq, Repr

/-- The ways `generate_outfit_on_person` can raise: the decode error from
unreadable input bytes; the `ValueError` Pillow raises from the
normalization resize at line 152 when an extreme input aspect ratio
(> 64:1) truncates a normalized dimension to 0; or the
`Exception("Pass 1 (SD img2img) failed")` raised when
`_pass1_sd_composite` returns `None`. -/
inductive PipelineError where
  | imageDecodeError
  | resizeError
  | pass1Failed
deriving DecidableEq, Repr

/-- Body of `generate_outfit_on_person` (lines 131-179): decode and normalize the
input — where `img.resize((new_w, new_h), Image.LANCZOS)` at line 152
raises Pillow's `ValueError("height and width must be > 0")` whenever a
normalized dimension has truncated to 0, which the surrounding `except`
re-raises — then run Pass 1, and on its success run Pass 2, returning the
refined image when available and otherwise the composite.  The returned
image is what the source PNG-encodes and base64-returns; encoding is
injective, so the encoded string is modelled by the image object
itself. -/
def pipeline (input : DecodeResult) (resp1 : SDResponse)
    (env : String → FluxResponse) : Except PipelineError PImage :=
  match input with
  | .fail => .error .imageDecodeError
  | .ok img =>
    let dims := normalizeDims img.width img.height
    if dims.1 = 0 ∨ dims.2 = 0 then .error .resizeError
    else
      let original := PImage.resized img dims.1 dims.2
      match pass1 original dims.1 dims.2 resp1 with
      | none => .error .pass1Failed
      | some composite =>
        match pass2 env with
        | some refined => .ok refined
        | none => .ok composite

/-- The failure classification of the Pass-1 response, exactly the
conditions of the claim: timeout, non-success status, JSON body, or an
undersized binary.  (An undecodable body also fails; it is kept separate
because the claim does not mention it.) -/
def sdFailure (resp : SDResponse) : Prop :=
  match resp with
  | .timeout => True
  | .http status json body => status ≠ 200 ∨ json = true ∨ body.len < 1000

instance (resp : SDResponse) : Decidable (sdFailure resp) := by
  unfold sdFailure
  cases resp <;> infer_instance

/-- Modelled from the claim's wording, for comparison with `tryFlux`: a
refinement candidate succeeds when its response is a (sufficiently large)
binary image or a JSON body containing an encoded image field, and fails
on non-success status, timeout, JSON without an image field, or
undersized binary.  This is the spec's description; the source
additionally requires the JSON `success` flag to be truthy. -/
def claimedTryFlux (resp : FluxResponse) : Option PImage :=
  match resp with
  | .timeout => none
  | .httpJson status body =>
    if status ≠ 200 then none
    else
      match body.image with
      | some payload => payload.decoded
      | none => none
  | .httpBinary status body =>
    if status ≠ 200 then none
    else if body.len > 1000 then body.decoded
    else none

/-! ## Helper lemmas -/

/-- Every failure branch of `_pass1_sd_composite` returns `None`. -/
theorem pass1_none_of_failure (original : PImage) (a b : ℕ) (resp : SDResponse)
    (h : sdFailure resp) : pass1 original a b resp = none := by
  cases resp with
  | timeout => rfl
  | http status json body =>
    rcases h with h | h | h
    · simp [pass1, h]
    · by_cases hs : status = 200
      · simp [pass1, hs, h]
      · simp [pass1, hs]
    · by_cases hs : status = 200
      · by_cases hj : json <;> simp [pass1, hs, hj, h]
      · simp [pass1, hs]

/-- A successful Pass 1 always yields a composite of a generated frame at
the working dimensions onto the given original, through a mask of the
working dimensions. -/
theorem pass1_some_inv (original : PImage) (a b : ℕ) (resp : SDResponse) (composite : PImage)
    (h : pass1 original a b resp = some composite) :
    ∃ g, composite = .composited g original a b ∧ g.width = a ∧ g.height = b := by
  cases resp with
  | timeout => exact absurd h (by simp [pass1])
  | http status json body =>
    simp only [pass1] at h
    split_ifs at h
    cases hb : body.decoded with
    | none => rw [hb] at h; cases h
    | some gen =>
      rw [hb] at h
      simp only [Option.some.injEq] at h
      by_cases hd : (gen.width, gen.height) = (a, b)
      · rw [if_neg (not_not_intro hd)] at h
        simp only [Prod.mk.injEq] at hd
        exact ⟨gen, h.symm, hd.1, hd.2⟩
      · rw [if_pos hd] at h
        exact ⟨.resized gen a b, h.symm, rfl, rfl⟩

/-- On a decodable input one of whose normalized dimensions has truncated
to 0, the line-152 resize raises Pillow's `ValueError` and the pipeline
fails with that error, before any synthesis request. -/
theorem pipeline_degenerate (img : PImage) (resp1 : SDResponse)
    (env : String → FluxResponse)
    (h : (normalizeDims img.width img.height).1 = 0 ∨
         (normalizeDims img.width img.height).2 = 0) :
    pipeline (.ok img) resp1 env = .error .resizeError := by
  simp only [pipeline]
  rw [if_pos h]

/-- Unfolding of `generate_outfit_on_person` on a decodable input whose
normalized dimensions are both positive (so the line-152 resize does not
raise). -/
theorem pipeline_ok_eq (img : PImage) (resp1 : SDResponse) (env : String → FluxResponse)
    (h1 : 0 < (normalizeDims img.width img.height).1)
    (h2 : 0 < (normalizeDims img.width img.height).2) :
    pipeline (.ok img) resp1 env =
      match pass1 (PImage.resized img (normalizeDims img.width img.height).1
          (normalizeDims img.width img.height).2)
          (normalizeDims img.width img.height).1 (normalizeDims img.width img.height).2 resp1 with
      | none => .error .pass1Failed
      | some composite =>
        match pass2 env with
        | some refined => .ok refined
        | none => .ok composite := by
  simp only [pipeline]
  rw [if_neg (by omega)]

/-- Dimension facts about the input normalization: both output dimensions
are multiples of 8, bounded by 512, and the larger one is exactly 512. -/
theorem normalizeDims_bounds (w h : ℕ) (hw : 1 ≤ w) (hh : 1 ≤ h) :
    8 ∣ (normalizeDims w h).1 ∧ 8 ∣ (normalizeDims w h).2 ∧
    (normalizeDims w h).1 ≤ 512 ∧ (normalizeDims w h).2 ≤ 512 ∧
    max (normalizeDims w h).1 (normalizeDims w h).2 = 512 := by
  unfold normalizeDims
  by_cases hgt : w > h
  · simp only [if_pos hgt]
    have hq : h * 512 / w < 512 := by
      rw [Nat.div_lt_iff_lt_mul (by omega : 0 < w), mul_comm 512 w]
      exact Nat.mul_lt_mul_of_lt_of_le hgt (le_refl 512) (by norm_num)
    have hb : h * 512 / w / 8 * 8 ≤ h * 512 / w := Nat.div_mul_le_self _ 8
    refine ⟨by norm_num, dvd_mul_left 8 _, by norm_num, by omega, ?_⟩
    exact max_eq_left (by omega)
  · simp only [if_neg hgt]
    have hle : w ≤ h := by omega
    have hq : w * 512 / h ≤ 512 := by
      have h1 : w * 512 / h ≤ h * 512 / h :=
        Nat.div_le_div_right (Nat.mul_le_mul_right 512 hle)
      have h2 : h * 512 / h = 512 := Nat.mul_div_cancel_left 512 (by omega : 0 < h)
      omega
    have hb : w * 512 / h / 8 * 8 ≤ w * 512 / h := Nat.div_mul_le_self _ 8
    refine ⟨dvd_mul_left 8 _, by norm_num, by omega, by norm_num, ?_⟩
    exact max_eq_right (by omega)

/-- Dimension facts about the refinement upscale: both output dimensions
are multiples of 8, bounded by 768, and the larger one is exactly 768. -/
theorem refineInputDims_bounds (w h : ℕ) (hm : 1 ≤ max w h) :
    8 ∣ (refineInputDims w h).1 ∧ 8 ∣ (refineInputDims w h).2 ∧
    (refineInputDims w h).1 ≤ 768 ∧ (refineInputDims w h).2 ≤ 768 ∧
    max (refineInputDims w h).1 (refineInputDims w h).2 = 768 := by
  have hm0 : 0 < max w h := hm
  have key : ∀ d, d ≤ max w h → d * 768 / max w h / 8 * 8 ≤ 768 := by
    intro d hd
    have h1 : d * 768 / max w h ≤ max w h * 768 / max w h :=
      Nat.div_le_div_right (Nat.mul_le_mul_right 768 hd)
    have h2 : max w h * 768 / max w h = 768 := Nat.mul_div_cancel_left 768 hm0
    have h3 : d * 768 / max w h / 8 * 8 ≤ d * 768 / max w h := Nat.div_mul_le_self _ 8
    omega
  have hmaxdim : max w h * 768 / max w h / 8 * 8 = 768 := by
    rw [Nat.mul_div_cancel_left 768 hm0]
  refine ⟨dvd_mul_left 8 _, dvd_mul_left 8 _,
    key w (le_max_left w h), key h (le_max_right w h), ?_⟩
  rcases le_total w h with hle | hle
  · have hw : max w h = h := max_eq_right hle
    have h768 : (refineInputDims w h).2 = 768 := by
      show h * 768 / max w h / 8 * 8 = 768
      rw [hw] at hmaxdim ⊢
      exact hmaxdim
    have hle768 : (refineInputDims w h).1 ≤ 768 := key w (le_max_left w h)
    rw [h768]
    exact max_eq_right hle768
  · have hw : max w h = w := max_eq_left hle
    have h768 : (refineInputDims w h).1 = 768 := by
      show w * 768 / max w h / 8 * 8 = 768
      rw [hw] at hmaxdim ⊢
      exact hmaxdim
    have hle768 : (refineInputDims w h).2 ≤ 768 := key h (le_max_right w h)
    rw [h768]
    exact max_eq_left hle768

/-! ## Claim theorems -/

/-- **C1** (counterexample to the claim as stated): Pillow's composite is an
integer operation, so the result is not the exact real-valued blend
`original*(1 - mask/255) + generated*(mask/255)`.  At `original = 0`,
`generated = 1`, `mask = 128` the code produces channel value 1, while the
claimed formula gives `128/255`. -/
theorem c1_counterexample :
    ((compositeImg ⟨1, 1, fun _ _ _ => 1⟩ ⟨1, 1, fun _ _ _ => 0⟩
        ⟨1, 1, fun _ _ => 128⟩).px 0 0 0 : ℚ)
      ≠ (0 : ℚ) * (1 - 128 / 255) + 1 * (128 / 255) := by
  have h : (compositeImg ⟨1, 1, fun _ _ _ => 1⟩ ⟨1, 1, fun _ _ _ => 0⟩
      ⟨1, 1, fun _ _ => 128⟩).px 0 0 0 = 1 := by decide
  rw [h]
  norm_num

/-- **C1** (amended): per pixel per channel the Compositor produces the
claimed blend with each of the two weighted terms rounded to the nearest
integer — `result = round(original*(255-mask)/255) + round(generated*mask/255)`,
written with `round(x/255) = (2x+255)/510` — and in particular at mask
value 0 the result is bit-identical to the original and at mask value 255
it equals the generated pixel exactly. -/
theorem c1_compositor_blend (generated original : PixImage) (mask : PixMask)
    (ho : ∀ x y c, original.px x y c ≤ 255)
    (hg : ∀ x y c, generated.px x y c ≤ 255)
    (hm : ∀ x y, mask.px x y ≤ 255) :
    (compositeImg generated original mask).width = original.width ∧
    (compositeImg generated original mask).height = original.height ∧
    ∀ x y c,
      (compositeImg generated original mask).px x y c
        = (2 * (original.px x y c * (255 - mask.px x y)) + 255) / 510
          + (2 * (generated.px x y c * mask.px x y) + 255) / 510 ∧
      (mask.px x y = 0 →
        (compositeImg generated original mask).px x y c = original.px x y c) ∧
      (mask.px x y = 255 →
        (compositeImg generated original mask).px x y c = generated.px x y c) := by
  refine ⟨rfl, rfl, fun x y c => ⟨?_, fun h0 => ?_, fun h255 => ?_⟩⟩
  · show blendPx (mask.px x y) (original.px x y c) (generated.px x y c) = _
    unfold blendPx
    rw [muldiv255_eq_round _ _ (ho x y c) (by have := hm x y; omega),
        muldiv255_eq_round _ _ (hg x y c) (hm x y)]
  · show blendPx (mask.px x y) (original.px x y c) (generated.px x y c) = _
    rw [h0]
    exact blendPx_mask_zero _ _ (ho x y c)
  · show blendPx (mask.px x y) (original.px x y c) (generated.px x y c) = _
    rw [h255]
    exact blendPx_mask_full _ _ (hg x y c)

/-- Witness for C1's amended theorem at a concrete 1×1 triple. -/
theorem c1_witness :
    (compositeImg ⟨1, 1, fun _ _ _ => 200⟩ ⟨1, 1, fun _ _ _ => 10⟩
        ⟨1, 1, fun _ _ => 128⟩).px 0 0 0
      = (2 * (10 * 127) + 255) / 510 + (2 * (200 * 128) + 255) / 510 :=
  ((c1_compositor_blend ⟨1, 1, fun _ _ _ => 200⟩ ⟨1, 1, fun _ _ _ => 10⟩
      ⟨1, 1, fun _ _ => 128⟩ (fun _ _ _ => by show (10 : ℕ) ≤ 255; norm_num)
      (fun _ _ _ => by show (200 : ℕ) ≤ 255; norm_num)
      (fun _ _ => by show (128 : ℕ) ≤ 255; norm_num)).2.2 0 0 0).1

/-- **C9**: if the generated image equals the original pixel-for-pixel,
compositing them with any (8-bit) mask returns the original
pixel-for-pixel, and the dimensions are the original's. -/
theorem c9_composite_degenerate (generated original : PixImage) (mask : PixMask)
    (ho : ∀ x y c, original.px x y c ≤ 255)
    (hm : ∀ x y, mask.px x y ≤ 255)
    (heq : ∀ x y c, generated.px x y c = original.px x y c) :
    ((compositeImg generated original mask).width = original.width ∧
     (compositeImg generated original mask).height = original.height) ∧
    ∀ x y c, (compositeImg generated original mask).px x y c = original.px x y c := by
  refine ⟨⟨rfl, rfl⟩, fun x y c => ?_⟩
  show blendPx (mask.px x y) (original.px x y c) (generated.px x y c) = _
  rw [heq x y c]
  exact blendPx_same _ _ (hm x y) (ho x y c)

/-- Witness for C9 at a concrete constant image and mid-gray mask. -/
theorem c9_witness :
    (compositeImg ⟨2, 2, fun _ _ _ => 77⟩ ⟨2, 2, fun _ _ _ => 77⟩
        ⟨2, 2, fun _ _ => 100⟩).px 1 1 2 = 77 :=
  (c9_composite_degenerate ⟨2, 2, fun _ _ _ => 77⟩ ⟨2, 2, fun _ _ _ => 77⟩
      ⟨2, 2, fun _ _ => 100⟩ (fun _ _ _ => by show (77 : ℕ) ≤ 255; norm_num)
      (fun _ _ => by show (100 : ℕ) ≤ 255; norm_num)
      (fun _ _ _ => rfl)).2 1 1 2

/-- **C3**: each of the Pass-1 failure conditions (timeout, non-success
status, JSON body, undersized binary) makes `_pass1_sd_composite` return
`None` — no retry, no composite — and, on every input whose normalization
resize succeeds (positive working dimensions, the only runs that reach the
synthesis request), makes the whole pipeline fail with the Pass-1 failure,
whatever the refinement responses would have been (so no refinement call
can influence the outcome). -/
theorem c3_pass1_fatal (resp : SDResponse) (h : sdFailure resp) :
    (∀ original a b, pass1 original a b resp = none) ∧
    ∀ (img : PImage) (env : String → FluxResponse),
      0 < (normalizeDims img.width img.height).1 →
      0 < (normalizeDims img.width img.height).2 →
      pipeline (.ok img) resp env = .error .pass1Failed := by
  refine ⟨fun original a b => pass1_none_of_failure original a b resp h,
    fun img env h1 h2 => ?_⟩
  rw [pipeline_ok_eq _ _ _ h1 h2, pass1_none_of_failure _ _ _ _ h]

/-- Witness for C3: a 500-status synthesis response is fatal regardless of
the refinement environment. -/
theorem c3_witness :
    pipeline (.ok (.decoded 0 640 480))
        (.http 500 false ⟨2000, some (.decoded 1 512 384)⟩)
        (fun _ => .timeout)
      = .error .pass1Failed :=
  (c3_pass1_fatal (.http 500 false ⟨2000, some (.decoded 1 512 384)⟩)
      (Or.inl (by decide))).2 (.decoded 0 640 480) (fun _ => .timeout)
    (by decide) (by decide)

/-- **C4** (counterexample to the claim as stated): a JSON response that
does contain a decodable encoded image field but whose `success` flag is
not truthy is treated as a failure by the code — the candidate loop
advances and, with no further candidate succeeding, refinement yields
nothing, while the claim calls this response a success to be returned
immediately. -/
theorem c4_counterexample :
    claimedTryFlux (.httpJson 200 ⟨false, some ⟨5000, some (.decoded 3 768 768)⟩⟩)
      = some (.decoded 3 768 768) ∧
    tryFlux (.httpJson 200 ⟨false, some ⟨5000, some (.decoded 3 768 768)⟩⟩) = none ∧
    pass2 (fun _ => .httpJson 200 ⟨false, some ⟨5000, some (.decoded 3 768 768)⟩⟩)
      = none :=
  ⟨rfl, rfl, rfl⟩

/-- **C4** (amended): the refinement client tries its candidates strictly
in the configured priority order (`pass2` iterates exactly the 9b model
then the 4b model); a successful candidate's image is returned immediately
without trying later candidates; a failed candidate advances to the next;
exhaustion returns the no-refinement signal `none` instead of an error —
where a JSON response counts as a success only when its `success` flag is
truthy (in addition to containing a decodable encoded image field). -/
theorem c4_refine_fallback :
    (∀ (env : String → FluxResponse) (m : String) (rest : List String) (img : PImage),
      tryFlux (env m) = some img → tryModels env (m :: rest) = some img) ∧
    (∀ (env : String → FluxResponse) (m : String) (rest : List String),
      tryFlux (env m) = none → tryModels env (m :: rest) = tryModels env rest) ∧
    (∀ env : String → FluxResponse, tryModels env [] = none) ∧
    (∀ env : String → FluxResponse, pass2 env
      = tryModels env ["@cf/black-forest-labs/flux-2-klein-9b",
                       "@cf/black-forest-labs/flux-2-klein-4b"]) ∧
    (∀ (status : ℕ) (body : FluxJsonBody), body.success = false →
      tryFlux (.httpJson status body) = none) := by
  refine ⟨fun env m rest img h => ?_, fun env m rest h => ?_,
    fun env => rfl, fun env => rfl, fun status body h => ?_⟩
  · simp [tryModels, h]
  · simp [tryModels, h]
  · simp [tryFlux, h]

/-- Witness for C4's amended theorem: a timed-out first candidate makes
the loop fall through to the remaining candidates. -/
theorem c4_witness :
    tryModels (fun _ => .timeout)
        ["@cf/black-forest-labs/flux-2-klein-9b",
         "@cf/black-forest-labs/flux-2-klein-4b"]
      = tryModels (fun _ => .timeout) ["@cf/black-forest-labs/flux-2-klein-4b"] :=
  c4_refine_fallback.2.1 (fun _ => .timeout)
    "@cf/black-forest-labs/flux-2-klein-9b"
    ["@cf/black-forest-labs/flux-2-klein-4b"] rfl

/-- **C5** (counterexample to the claim as stated): a decodable 1000×10
input (aspect ratio 100:1) truncates the normalized height to
`int(10*512/1000)//8*8 = 0`, so the line-152 resize raises before any
synthesis request: the pipeline fails although the input bytes decoded
and the synthesis response was not a failure — a failure that is neither
the decode error nor a Pass-1 failure. -/
theorem c5_counterexample :
    pipeline (.ok (.decoded 0 1000 10))
        (.http 200 false ⟨2000, some (.decoded 1 512 0)⟩) (fun _ => .timeout)
      = .error .resizeError ∧
    ¬ sdFailure (.http 200 false ⟨2000, some (.decoded 1 512 0)⟩) ∧
    PipelineError.resizeError ≠ .imageDecodeError ∧
    PipelineError.resizeError ≠ .pass1Failed := by
  refine ⟨rfl, ?_, by decide, by decide⟩
  intro hf
  have hf' : (200 : ℕ) ≠ 200 ∨ false = true ∨ (2000 : ℕ) < 1000 := hf
  rcases hf' with h | h | h
  · exact h rfl
  · cases h
  · omega

/-- **C5** (amended): the pipeline fails only when input normalization
fails — unreadable input bytes (decode error) or an extreme aspect ratio
(> 64:1) that truncates a normalized dimension to 0, making the line-152
resize raise — or when Pass 1 fails; whenever a run reaches a Pass-1
composite, any Pass-2 failure (including a refinement timeout, as in the
witness) degrades to returning that composite instead of failing. -/
theorem c5_failure_modes (img : PImage) (resp1 : SDResponse)
    (env : String → FluxResponse) :
    pipeline .fail resp1 env = .error .imageDecodeError ∧
    (∀ e, pipeline (.ok img) resp1 env = .error e →
      (e = .resizeError ∧
        ((normalizeDims img.width img.height).1 = 0 ∨
         (normalizeDims img.width img.height).2 = 0)) ∨
      (e = .pass1Failed ∧
        pass1 (PImage.resized img (normalizeDims img.width img.height).1
            (normalizeDims img.width img.height).2)
          (normalizeDims img.width img.height).1
          (normalizeDims img.width img.height).2 resp1 = none)) ∧
    (∀ composite,
      pass1 (PImage.resized img (normalizeDims img.width img.height).1
          (normalizeDims img.width img.height).2)
        (normalizeDims img.width img.height).1
        (normalizeDims img.width img.height).2 resp1 = some composite →
      pass2 env = none →
      0 < (normalizeDims img.width img.height).1 →
      0 < (normalizeDims img.width img.height).2 →
      pipeline (.ok img) resp1 env = .ok composite) := by
  refine ⟨rfl, fun e he => ?_, fun composite hc hnone h1 h2 => ?_⟩
  · by_cases hz : (normalizeDims img.width img.height).1 = 0 ∨
        (normalizeDims img.width img.height).2 = 0
    · left
      rw [pipeline_degenerate img resp1 env hz] at he
      exact ⟨(Except.error.inj he).symm, hz⟩
    · right
      obtain ⟨hz1, hz2⟩ := not_or.mp hz
      rw [pipeline_ok_eq img resp1 env (by omega) (by omega)] at he
      cases hp : pass1 (PImage.resized img (normalizeDims img.width img.height).1
          (normalizeDims img.width img.height).2)
          (normalizeDims img.width img.height).1
          (normalizeDims img.width img.height).2 resp1 with
      | none =>
        rw [hp] at he
        exact ⟨(Except.error.inj he).symm, rfl⟩
      | some c =>
        rw [hp] at he
        cases hq : pass2 env <;> rw [hq] at he <;> cases he
  · rw [pipeline_ok_eq img resp1 env h1 h2, hc, hnone]

/-- Witness for C5's amended theorem: a run whose only Pass-2 outcome is
a timeout still returns the Pass-1 composite. -/
theorem c5_witness :
    pipeline (.ok (.decoded 0 640 480))
        (.http 200 false ⟨2000, some (.decoded 1 512 384)⟩)
        (fun _ => .timeout)
      = .ok (.composited (.decoded 1 512 384)
          (.resized (.decoded 0 640 480) 512 384) 512 384) :=
  (c5_failure_modes (.decoded 0 640 480)
      (.http 200 false ⟨2000, some (.decoded 1 512 384)⟩) (fun _ => .timeout)).2.2
    (.composited (.decoded 1 512 384) (.resized (.decoded 0 640 480) 512 384) 512 384)
    rfl rfl (by decide) (by decide)

/-- **C6**: for every positive input size, the normalizer's output
dimensions are divisible by 8, bounded by 512, the larger one is exactly
the 512 target, and the scaled dimension preserves the input aspect ratio
to within one truncation unit (it is the exact aspect-matching value
rounded down by less than 8, the multiple-of-8 granularity). -/
theorem c6_normalizer (w h : ℕ) (hw : 1 ≤ w) (hh : 1 ≤ h) :
    8 ∣ (normalizeDims w h).1 ∧ 8 ∣ (normalizeDims w h).2 ∧
    (normalizeDims w h).1 ≤ 512 ∧ (normalizeDims w h).2 ≤ 512 ∧
    max (normalizeDims w h).1 (normalizeDims w h).2 = 512 ∧
    (w > h → (normalizeDims w h).1 = 512 ∧
      (normalizeDims w h).2 * w ≤ 512 * h ∧
      512 * h < ((normalizeDims w h).2 + 8) * w) ∧
    (w ≤ h → (normalizeDims w h).2 = 512 ∧
      (normalizeDims w h).1 * h ≤ 512 * w ∧
      512 * w < ((normalizeDims w h).1 + 8) * h) := by
  obtain ⟨d1, d2, b1, b2, bmax⟩ := normalizeDims_bounds w h hw hh
  refine ⟨d1, d2, b1, b2, bmax, fun hgt => ?_, fun hle => ?_⟩
  · have h1 : (normalizeDims w h).1 = 512 := by
      unfold normalizeDims
      rw [if_pos hgt]
    refine ⟨h1, ?_, ?_⟩
    · have h2 : (normalizeDims w h).2 = h * 512 / w / 8 * 8 := by
        unfold normalizeDims
        rw [if_pos hgt]
      rw [h2]
      calc h * 512 / w / 8 * 8 * w ≤ h * 512 / w * w :=
            Nat.mul_le_mul_right w (Nat.div_mul_le_self _ 8)
      _ ≤ h * 512 := Nat.div_mul_le_self _ w
      _ = 512 * h := Nat.mul_comm h 512
    · have h2 : (normalizeDims w h).2 = h * 512 / w / 8 * 8 := by
        unfold normalizeDims
        rw [if_pos hgt]
      have hdm : w * (h * 512 / w) + h * 512 % w = h * 512 := Nat.div_add_mod _ w
      have hmod : h * 512 % w < w := Nat.mod_lt _ (by omega)
      have hstep : h * 512 / w ≤ h * 512 / w / 8 * 8 + 7 := by omega
      have hq : 512 * h ≤ w * (h * 512 / w) + h * 512 % w := by
        rw [hdm, Nat.mul_comm]
      calc 512 * h = w * (h * 512 / w) + h * 512 % w := by rw [hdm, Nat.mul_comm]
      _ < w * (h * 512 / w) + w := by omega
      _ = w * (h * 512 / w + 1) := by ring
      _ ≤ w * (h * 512 / w / 8 * 8 + 8) := Nat.mul_le_mul_left w (by omega)
      _ = (h * 512 / w / 8 * 8 + 8) * w := Nat.mul_comm _ _
      _ = ((normalizeDims w h).2 + 8) * w := by rw [h2]
  · have h1 : (normalizeDims w h).2 = 512 := by
      unfold normalizeDims
      rw [if_neg (by omega : ¬ w > h)]
    refine ⟨h1, ?_, ?_⟩
    · have h2 : (normalizeDims w h).1 = w * 512 / h / 8 * 8 := by
        unfold normalizeDims
        rw [if_neg (by omega : ¬ w > h)]
      rw [h2]
      calc w * 512 / h / 8 * 8 * h ≤ w * 512 / h * h :=
            Nat.mul_le_mul_right h (Nat.div_mul_le_self _ 8)
      _ ≤ w * 512 := Nat.div_mul_le_self _ h
      _ = 512 * w := Nat.mul_comm w 512
    · have h2 : (normalizeDims w h).1 = w * 512 / h / 8 * 8 := by
        unfold normalizeDims
        rw [if_neg (by omega : ¬ w > h)]
      have hdm : h * (w * 512 / h) + w * 512 % h = w * 512 := Nat.div_add_mod _ h
      have hmod : w * 512 % h < h := Nat.mod_lt _ (by omega)
      calc 512 * w = h * (w * 512 / h) + w * 512 % h := by rw [hdm, Nat.mul_comm]
      _ < h * (w * 512 / h) + h := by omega
      _ = h * (w * 512 / h + 1) := by ring
      _ ≤ h * (w * 512 / h / 8 * 8 + 8) := Nat.mul_le_mul_left h (by omega)
      _ = (w * 512 / h / 8 * 8 + 8) * h := Nat.mul_comm _ _
      _ = ((normalizeDims w h).1 + 8) * h := by rw [h2]

/-- Witness for C6 at a 640×480 input: the output is 512×384 and the
aspect bracket holds there. -/
theorem c6_witness :
    (normalizeDims 640 480).1 = 512 ∧
    (normalizeDims 640 480).2 * 640 ≤ 512 * 480 ∧
    512 * 480 < ((normalizeDims 640 480).2 + 8) * 640 :=
  (c6_normalizer 640 480 (by norm_num) (by norm_num)).2.2.2.2.2.1 (by norm_num)

/-- **C7** (counterexample to the claim as stated): the public operation
returns only the encoded final image, not a `(bytes, refined)` pair: two
runs on the same input, one whose refinement succeeds (returning bytes
identical to the composite) and one whose refinement times out on every
candidate, produce exactly the same return value, so no component of the
return value can be the claimed `refined` flag. -/
theorem c7_counterexample :
    (pass2 (fun _ => .httpBinary 200 ⟨2000, some (.composited (.decoded 1 512 512)
        (.resized (.decoded 0 512 512) 512 512) 512 512)⟩)).isSome = true ∧
    (pass2 (fun _ => .timeout)).isSome = false ∧
    pipeline (.ok (.decoded 0 512 512))
        (.http 200 false ⟨2000, some (.decoded 1 512 512)⟩)
        (fun _ => .httpBinary 200 ⟨2000, some (.composited (.decoded 1 512 512)
            (.resized (.decoded 0 512 512) 512 512) 512 512)⟩)
      = pipeline (.ok (.decoded 0 512 512))
          (.http 200 false ⟨2000, some (.decoded 1 512 512)⟩)
          (fun _ => .timeout) :=
  ⟨rfl, rfl, rfl⟩

/-- **C7** (amended): on every successful run (the normalization resize
succeeded — positive working dimensions — and Pass 1 produced a
composite) the operation returns the final image bytes only — the refined
image when Pass 2 succeeded, otherwise the Pass-1 composite; no
refinement flag is part of the return value. -/
theorem c7_returns_image_only (img : PImage) (resp1 : SDResponse)
    (env : String → FluxResponse) (composite : PImage)
    (h1 : 0 < (normalizeDims img.width img.height).1)
    (h2 : 0 < (normalizeDims img.width img.height).2)
    (hc : pass1 (PImage.resized img (normalizeDims img.width img.height).1
        (normalizeDims img.width img.height).2)
      (normalizeDims img.width img.height).1
      (normalizeDims img.width img.height).2 resp1 = some composite) :
    pipeline (.ok img) resp1 env = .ok ((pass2 env).getD composite) := by
  rw [pipeline_ok_eq img resp1 env h1 h2, hc]
  cases hq : pass2 env <;> simp [hq]

/-- Witness for C7's amended theorem on a concrete successful run. -/
theorem c7_witness :
    pipeline (.ok (.decoded 2 640 480))
        (.http 200 false ⟨2000, some (.decoded 3 512 384)⟩)
        (fun _ => .httpBinary 404 ⟨0, none⟩)
      = .ok (.composited (.decoded 3 512 384)
          (.resized (.decoded 2 640 480) 512 384) 512 384) :=
  c7_returns_image_only (.decoded 2 640 480)
    (.http 200 false ⟨2000, some (.decoded 3 512 384)⟩)
    (fun _ => .httpBinary 404 ⟨0, none⟩)
    (.composited (.decoded 3 512 384) (.resized (.decoded 2 640 480) 512 384) 512 384)
    (by decide) (by decide) rfl

/-- **C8**: on any run whose Pass 1 succeeds, the composite is built
through a mask whose recorded dimensions equal the working image
dimensions (those of the resized original), the working dimensions are
multiples of 8 bounded by 512, and the image submitted to refinement has
dimensions that are multiples of 8 bounded by 768 with the larger one
exactly 768 (the ≈768 upsample rounded down to a multiple of 8). -/
theorem c8_dimension_invariants (img : PImage) (resp : SDResponse) (composite : PImage)
    (hw : 1 ≤ img.width) (hh : 1 ≤ img.height)
    (hc : pass1 (PImage.resized img (normalizeDims img.width img.height).1
        (normalizeDims img.width img.height).2)
      (normalizeDims img.width img.height).1
      (normalizeDims img.width img.height).2 resp = some composite) :
    (∃ g, composite = .composited g
        (.resized img (normalizeDims img.width img.height).1
          (normalizeDims img.width img.height).2)
        (normalizeDims img.width img.height).1
        (normalizeDims img.width img.height).2
      ∧ g.width = (normalizeDims img.width img.height).1
      ∧ g.height = (normalizeDims img.width img.height).2) ∧
    composite.width = (normalizeDims img.width img.height).1 ∧
    composite.height = (normalizeDims img.width img.height).2 ∧
    8 ∣ (normalizeDims img.width img.height).1 ∧
    8 ∣ (normalizeDims img.width img.height).2 ∧
    (normalizeDims img.width img.height).1 ≤ 512 ∧
    (normalizeDims img.width img.height).2 ≤ 512 ∧
    8 ∣ (pass2Submit composite).width ∧ 8 ∣ (pass2Submit composite).height ∧
    (pass2Submit composite).width ≤ 768 ∧ (pass2Submit composite).height ≤ 768 ∧
    max (pass2Submit composite).width (pass2Submit composite).height = 768 := by
  obtain ⟨g, hcomp, hgw, hgh⟩ := pass1_some_inv _ _ _ _ _ hc
  obtain ⟨d1, d2, b1, b2, bmax⟩ :=
    normalizeDims_bounds img.width img.height hw hh
  have hcw : composite.width = (normalizeDims img.width img.height).1 := by
    rw [hcomp]
    rfl
  have hch : composite.height = (normalizeDims img.width img.height).2 := by
    rw [hcomp]
    rfl
  have hmax1 : 1 ≤ max composite.width composite.height := by
    rw [hcw, hch]
    omega
  obtain ⟨r1, r2, r3, r4, r5⟩ :=
    refineInputDims_bounds composite.width composite.height hmax1
  have hsw : (pass2Submit composite).width
      = (refineInputDims composite.width composite.height).1 := rfl
  have hsh : (pass2Submit composite).height
      = (refineInputDims composite.width composite.height).2 := rfl
  refine ⟨⟨g, hcomp, hgw, hgh⟩, hcw, hch, d1, d2, b1, b2, ?_, ?_, ?_, ?_, ?_⟩
  · rw [hsw]; exact r1
  · rw [hsh]; exact r2
  · rw [hsw]; exact r3
  · rw [hsh]; exact r4
  · rw [hsw, hsh]; exact r5

/-- Witness for C8 on a concrete 640×480 run. -/
theorem c8_witness :
    max (pass2Submit (.composited (.decoded 1 512 384)
        (.resized (.decoded 0 640 480) 512 384) 512 384)).width
      (pass2Submit (.composited (.decoded 1 512 384)
        (.resized (.decoded 0 640 480) 512 384) 512 384)).height = 768 := by
  obtain ⟨-, -, -, -, -, -, -, -, -, -, -, hmax⟩ :=
    c8_dimension_invariants (.decoded 0 640 480)
      (.http 200 false ⟨2000, some (.decoded 1 512 384)⟩)
      (.composited (.decoded 1 512 384) (.resized (.decoded 0 640 480) 512 384) 512 384)
      (by decide) (by decide) rfl
  exact hmax

/-- **C10**: on a run with positive working dimensions, when Pass 2
succeeds with image `r` the pipeline returns `r` itself — the refinement
endpoint's image exactly as decoded, with no resize back to the working
resolution (its dimensions are whatever the endpoint returned) — whereas
a Pass-1 generated frame is resized back to the working resolution before
compositing exactly when its size differs from the working size. -/
theorem c10_refined_verbatim :
    (∀ (img : PImage) (resp1 : SDResponse) (env : String → FluxResponse)
        (r composite : PImage),
      0 < (normalizeDims img.width img.height).1 →
      0 < (normalizeDims img.width img.height).2 →
      pass1 (PImage.resized img (normalizeDims img.width img.height).1
          (normalizeDims img.width img.height).2)
        (normalizeDims img.width img.height).1
        (normalizeDims img.width img.height).2 resp1 = some composite →
      pass2 env = some r →
      pipeline (.ok img) resp1 env = .ok r) ∧
    (∀ (original : PImage) (a b len : ℕ) (gen : PImage), ¬ len < 1000 →
      ((gen.width, gen.height) ≠ (a, b) →
        pass1 original a b (.http 200 false ⟨len, some gen⟩)
          = some (.composited (.resized gen a b) original a b)) ∧
      ((gen.width, gen.height) = (a, b) →
        pass1 original a b (.http 200 false ⟨len, some gen⟩)
          = some (.composited gen original a b))) := by
  constructor
  · intro img resp1 env r composite h1 h2 hc hq
    rw [pipeline_ok_eq img resp1 env h1 h2, hc, hq]
  · intro original a b len gen hlen
    constructor
    · intro hne
      simp only [pass1]
      rw [if_neg (by norm_num), if_neg (by simp), if_neg hlen, if_pos hne]
    · intro heq
      simp only [pass1]
      rw [if_neg (by norm_num), if_neg (by simp), if_neg hlen,
        if_neg (not_not_intro heq)]

/-- Witness for C10: a refinement success at 1024×1024 is returned
verbatim even though the working resolution is 512×384. -/
theorem c10_witness :
    pipeline (.ok (.decoded 0 640 480))
        (.http 200 false ⟨2000, some (.decoded 1 512 384)⟩)
        (fun _ => .httpBinary 200 ⟨5000, some (.decoded 9 1024 1024)⟩)
      = .ok (.decoded 9 1024 1024) :=
  c10_refined_verbatim.1 (.decoded 0 640 480)
    (.http 200 false ⟨2000, some (.decoded 1 512 384)⟩)
    (fun _ => .httpBinary 200 ⟨5000, some (.decoded 9 1024 1024)⟩)
    (.decoded 9 1024 1024)
    (.composited (.decoded 1 512 384) (.resized (.decoded 0 640 480) 512 384) 512 384)
    (by decide) (by decide) rfl rfl

end Atriquet

